import Mathlib

/-!
Verification of the GW2 price-tracker signal-computation layer.

The definitions below are a shallow embedding of the repository's code:
`currency.py` (`copper_to_gsc`, `format_gsc`), the candidate derivations of
`pages/recommendations.py` (`_get_buy_candidates`, `_get_sell_candidates`),
the numeric-column coercion of `_load_data`, and the `total_sell_profit`
column of `pages/ai_recs.py` (`_build_ai_snapshot`).  Prices and derived
statistics are modelled as rationals (the dataframes hold floats/decimals);
pandas `.round(1)` is round-half-to-even on the value scaled by ten, and
`.astype(int)` truncates toward zero.
-/

/-- Round-half-to-even to an integer (the rounding used by numpy/pandas). -/
def roundHalfEven (q : ℚ) : ℤ :=
  if q - ⌊q⌋ < 1/2 then ⌊q⌋
  else if 1/2 < q - ⌊q⌋ then ⌊q⌋ + 1
  else if ⌊q⌋ % 2 = 0 then ⌊q⌋ else ⌊q⌋ + 1

/-- pandas `Series.round(1)`: round to one decimal place, half to even. -/
def round1 (q : ℚ) : ℚ := (roundHalfEven (q * 10) : ℚ) / 10

/-- Python `int(...)` on a float/rational: truncation toward zero. -/
def ratTrunc (q : ℚ) : ℤ := if q < 0 then -⌊-q⌋ else ⌊q⌋

/-- One merged row of the signals dataframe built by `_load_data`
(trading signals joined with item metadata), together with the
order-book depth fields (`sell_listings`, `buy_orders`) of the spec's
ItemSnapshot data model.  All numeric columns are rationals after the
`pd.to_numeric(...).fillna(0)` pass. -/
structure Snapshot where
  item_id : ℤ := 0
  current_count : ℚ := 0
  latest_sell : ℚ := 0
  latest_buy : ℚ := 0
  avg_sell_30d : ℚ := 0
  avg_buy_30d : ℚ := 0
  hist_min_sell : ℚ := 0
  hist_max_sell : ℚ := 0
  hist_min_buy : ℚ := 0
  hist_max_buy : ℚ := 0
  buy_z_score : ℚ := 0
  sell_z_score : ℚ := 0
  sell_listings : ℚ := 0
  buy_orders : ℚ := 0
  avg_daily_sold : ℚ := 0
  avg_daily_bought : ℚ := 0
  deriving DecidableEq

/-- Sort a list in descending order of `key` (the model of
`DataFrame.sort_values(col, ascending=False)`). -/
def sortByDesc (key : α → ℚ) (l : List α) : List α :=
  l.insertionSort fun a b => key b ≤ key a

/-- `sort_values(col, ascending=False).head(n)`: the `n` rows with the
largest `key`, in descending order. -/
def topN (n : ℕ) (key : α → ℚ) (l : List α) : List α :=
  (sortByDesc key l).take n

/-- Row filter of `_get_buy_candidates`:
`(hist_min_sell > 0) & (latest_sell < hist_min_sell)`. -/
def buyFilterB (s : Snapshot) : Bool :=
  decide (0 < s.hist_min_sell ∧ s.latest_sell < s.hist_min_sell)

/-- The derived column of `_get_buy_candidates`:
`((hist_min_sell - latest_sell) / hist_min_sell * 100).round(1)`. -/
def belowFloorPct (s : Snapshot) : ℚ :=
  round1 ((s.hist_min_sell - s.latest_sell) / s.hist_min_sell * 100)

/-- A buy-candidate row: the snapshot plus its `below_floor_pct` column. -/
structure BuyCand where
  snap : Snapshot
  below_floor_pct : ℚ
  deriving DecidableEq

/-- `_get_buy_candidates` of `pages/recommendations.py`: filter to rows
below their 30-day floor, attach `below_floor_pct`, sort by it descending,
keep the head of five rows. -/
def get_buy_candidates (df : List Snapshot) : List BuyCand :=
  topN 5 (fun c => c.below_floor_pct)
    ((df.filter buyFilterB).map fun s => ⟨s, belowFloorPct s⟩)

/-- Row filter of `_get_sell_candidates`:
`(current_count > 0) & (hist_max_buy > 0) & (latest_buy > hist_max_buy)`. -/
def sellFilterB (s : Snapshot) : Bool :=
  decide (0 < s.current_count ∧ 0 < s.hist_max_buy ∧ s.hist_max_buy < s.latest_buy)

/-- The derived column of `_get_sell_candidates`:
`((latest_buy - hist_max_buy) / hist_max_buy * 100).round(1)`. -/
def aboveCeilingPct (s : Snapshot) : ℚ :=
  round1 ((s.latest_buy - s.hist_max_buy) / s.hist_max_buy * 100)

/-- A sell-candidate row: the snapshot plus its `above_ceiling_pct` column. -/
structure SellCand where
  snap : Snapshot
  above_ceiling_pct : ℚ
  deriving DecidableEq

/-- `_get_sell_candidates` of `pages/recommendations.py`: filter to owned
rows above their 30-day ceiling, attach `above_ceiling_pct`, sort by it
descending, keep the head of five rows. -/
def get_sell_candidates (df : List Snapshot) : List SellCand :=
  topN 5 (fun c => c.above_ceiling_pct)
    ((df.filter sellFilterB).map fun s => ⟨s, aboveCeilingPct s⟩)

-- ── Generic facts about `topN` ──────────────────────────────────────

theorem sortByDesc_perm (key : α → ℚ) (l : List α) :
    List.Perm (sortByDesc key l) l :=
  List.perm_insertionSort _ l

theorem sortByDesc_sorted (key : α → ℚ) (l : List α) :
    List.Sorted (fun a b => key b ≤ key a) (sortByDesc key l) := by
  have htot : IsTotal α fun a b => key b ≤ key a := ⟨fun a b => le_total (key b) (key a)⟩
  have htrans : IsTrans α fun a b => key b ≤ key a :=
    ⟨fun _ _ _ h1 h2 => le_trans h2 h1⟩
  exact List.sorted_insertionSort _ l

theorem mem_topN {n : ℕ} {key : α → ℚ} {l : List α} {a : α}
    (h : a ∈ topN n key l) : a ∈ l :=
  (sortByDesc_perm key l).mem_iff.mp (List.mem_of_mem_take h)

theorem topN_length (n : ℕ) (key : α → ℚ) (l : List α) :
    (topN n key l).length = min n l.length := by
  simp [topN, List.length_take, (sortByDesc_perm key l).length_eq]

theorem topN_sorted (n : ℕ) (key : α → ℚ) (l : List α) :
    List.Sorted (fun a b => key b ≤ key a) (topN n key l) :=
  (sortByDesc_sorted key l).sublist (List.take_sublist n _)

theorem topN_subperm (n : ℕ) (key : α → ℚ) (l : List α) :
    (topN n key l).Subperm l :=
  ((List.take_sublist n _).subperm).trans (sortByDesc_perm key l).subperm

theorem topN_top {n : ℕ} {key : α → ℚ} {l : List α} {b : α} (hn : 0 < n)
    (hb : b ∈ l) (hbest : ∀ a ∈ topN n key l, key a < key b) :
    b ∈ topN n key l := by
  by_contra hnot
  have hmem : b ∈ sortByDesc key l := (sortByDesc_perm key l).mem_iff.mpr hb
  have hsplit := List.take_append_drop n (sortByDesc key l)
  have hmem2 : b ∈ List.take n (sortByDesc key l) ++ List.drop n (sortByDesc key l) := by
    rw [hsplit]; exact hmem
  rcases List.mem_append.mp hmem2 with h | h
  · exact hnot h
  have hdrop_ne : List.drop n (sortByDesc key l) ≠ [] := List.ne_nil_of_mem h
  have hlen_gt : n < (sortByDesc key l).length := by
    by_contra hle
    push_neg at hle
    rw [List.drop_eq_nil_of_le hle] at hdrop_ne
    exact hdrop_ne rfl
  have hlen_eq : (sortByDesc key l).length = l.length := (sortByDesc_perm key l).length_eq
  have htake_ne : topN n key l ≠ [] := by
    intro hnil
    have hlt := topN_length n key l
    rw [hnil] at hlt
    rcases Nat.min_eq_zero_iff.mp hlt.symm with h0 | h0 <;> omega
  rcases List.exists_mem_of_ne_nil _ htake_ne with ⟨a, ha⟩
  have hsorted := sortByDesc_sorted key l
  rw [← hsplit, List.Sorted, List.pairwise_append] at hsorted
  have hr := hsorted.2.2 a ha b h
  exact absurd hr (not_le.mpr (hbest a ha))

-- ── Currency (`currency.py`) ────────────────────────────────────────

/-- `copper_to_gsc` of `currency.py` on the non-negative inputs it is used
with: `gold = copper // 10_000`, `silver = (copper % 10_000) // 100`,
`rem = copper % 100`. -/
def copper_to_gsc (copper : ℕ) : ℕ × ℕ × ℕ :=
  (copper / 10000, copper % 10000 / 100, copper % 100)

/-- Group the reversed decimal digits of a number in threes, the model of
the thousands separator of Python's `f"{g:,}"`. -/
def groupThrees : List Char → List Char
  | a :: b :: c :: d :: rest => a :: b :: c :: ',' :: groupThrees (d :: rest)
  | l => l

/-- Python `f"{g:,}"`: decimal digits with a comma every three. -/
def commaRepr (n : ℕ) : String :=
  String.mk ((groupThrees (Nat.repr n).data.reverse).reverse)

/-- Python `" ".join(parts)`. -/
def joinSpace : List String → String
  | [] => ""
  | [x] => x
  | x :: xs => x ++ " " ++ joinSpace xs

/-- `format_gsc` of `currency.py`: gold part only when non-zero, silver
part when gold shows or silver is non-zero, copper part always. -/
def format_gsc (copper : ℕ) : String :=
  let gsc := copper_to_gsc copper
  let g := gsc.1
  let s := gsc.2.1
  let c := gsc.2.2
  joinSpace
    ((if g ≠ 0 then [commaRepr g ++ "g"] else []) ++
     (if s ≠ 0 ∨ g ≠ 0 then [Nat.repr s ++ "s"] else []) ++
     [Nat.repr c ++ "c"])

-- ── AI snapshot (`pages/ai_recs.py`) ────────────────────────────────

/-- The fixed Trading Post transaction tax rate (15%), as the spec's named
constant. -/
def TAX_RATE : ℚ := 15 / 100

/-- The `total_sell_profit` column of `_build_ai_snapshot`:
`((latest_sell * 0.85 - avg_buy_30d) * current_count).clip(lower=0).astype(int)`. -/
def total_sell_profit (s : Snapshot) : ℤ :=
  ratTrunc (max ((s.latest_sell * (85 / 100) - s.avg_buy_30d) * s.current_count) 0)

-- ── Loading (`_load_data` numeric coercion) ─────────────────────────

/-- A raw dataframe cell before the numeric coercion pass: a numeric
value, a missing value (NULL / NaN, e.g. from a failed left join), or a
non-numeric entry. -/
inductive RawCell where
  | num (q : ℚ)
  | missing
  | nonNumeric
  deriving DecidableEq

/-- `pd.to_numeric(col, errors="coerce").fillna(0)` on one cell: numeric
values pass through, missing and non-numeric entries become 0. -/
def coerceCell : RawCell → ℚ
  | .num q => q
  | .missing => 0
  | .nonNumeric => 0

/-- One raw merged row before `_load_data`'s coercion of the listed
numeric signal columns. -/
structure RawSnapshot where
  item_id : ℤ := 0
  current_count : RawCell := .num 0
  latest_sell : RawCell := .num 0
  latest_buy : RawCell := .num 0
  avg_sell_30d : RawCell := .num 0
  avg_buy_30d : RawCell := .num 0
  hist_min_sell : RawCell := .num 0
  hist_max_sell : RawCell := .num 0
  hist_min_buy : RawCell := .num 0
  hist_max_buy : RawCell := .num 0
  buy_z_score : RawCell := .num 0
  sell_z_score : RawCell := .num 0
  sell_listings : ℚ := 0
  buy_orders : ℚ := 0
  avg_daily_sold : ℚ := 0
  avg_daily_bought : ℚ := 0
  deriving DecidableEq

/-- The numeric-coercion pass of `_load_data` applied to one row: every
listed numeric signal column goes through
`pd.to_numeric(..., errors="coerce").fillna(0)`. -/
def load_row (r : RawSnapshot) : Snapshot where
  item_id := r.item_id
  current_count := coerceCell r.current_count
  latest_sell := coerceCell r.latest_sell
  latest_buy := coerceCell r.latest_buy
  avg_sell_30d := coerceCell r.avg_sell_30d
  avg_buy_30d := coerceCell r.avg_buy_30d
  hist_min_sell := coerceCell r.hist_min_sell
  hist_max_sell := coerceCell r.hist_max_sell
  hist_min_buy := coerceCell r.hist_min_buy
  hist_max_buy := coerceCell r.hist_max_buy
  buy_z_score := coerceCell r.buy_z_score
  sell_z_score := coerceCell r.sell_z_score
  sell_listings := r.sell_listings
  buy_orders := r.buy_orders
  avg_daily_sold := r.avg_daily_sold
  avg_daily_bought := r.avg_daily_bought

-- ── Policy A (mean-reversion), absent from the sources ──────────────

/-- Modelled from the spec: the validity filter of the spec's section on
liquidity and validity filtering — a row enters price-ratio computation
only if latest_sell, latest_buy, avg_sell_30d and avg_buy_30d are all
strictly positive.  No such filter exists in `src/`. -/
def validRow (s : Snapshot) : Bool :=
  decide (0 < s.latest_sell ∧ 0 < s.latest_buy ∧
    0 < s.avg_sell_30d ∧ 0 < s.avg_buy_30d)

/-- A Policy A buy-candidate row: snapshot plus discount columns. -/
structure PolicyACand where
  snap : Snapshot
  discount : ℚ
  discount_pct : ℚ
  deriving DecidableEq

/-- Modelled from the spec: Policy A (mean-reversion) buy-candidate
derivation, which appears in the spec but nowhere in `src/`.  A row is a
candidate when it is valid, liquid enough to buy (`sell_listings >= 10`)
and `discount = avg_buy_30d - latest_buy` is strictly positive; it carries
`discount_pct = discount / avg_buy_30d * 100` and candidates are ranked by
`discount_pct` descending. -/
def policyA_buy_candidates (df : List Snapshot) : List PolicyACand :=
  sortByDesc (fun c => c.discount_pct)
    ((df.filter fun s =>
        validRow s && decide (10 ≤ s.sell_listings) &&
          decide (0 < s.avg_buy_30d - s.latest_buy)).map
      fun s =>
        ⟨s, s.avg_buy_30d - s.latest_buy,
          (s.avg_buy_30d - s.latest_buy) / s.avg_buy_30d * 100⟩)

theorem subperm_map (f : α → β) {l₁ l₂ : List α} (h : l₁.Subperm l₂) :
    (l₁.map f).Subperm (l₂.map f) := by
  rcases h with ⟨l, hp, hs⟩
  exact ⟨l.map f, hp.map f, hs.map f⟩

theorem buyFilterB_prop {s : Snapshot} (h : buyFilterB s = true) :
    0 < s.hist_min_sell ∧ s.latest_sell < s.hist_min_sell := by
  rw [buyFilterB] at h
  exact of_decide_eq_true h

theorem sellFilterB_prop {s : Snapshot} (h : sellFilterB s = true) :
    0 < s.current_count ∧ 0 < s.hist_max_buy ∧ s.hist_max_buy < s.latest_buy := by
  rw [sellFilterB] at h
  exact of_decide_eq_true h

/-- The concrete scenario row of the spec: `latest_sell=5000`,
`hist_min_sell=6000`. -/
def rowBelowFloor : Snapshot := { latest_sell := 5000, hist_min_sell := 6000 }

/-- Claim C1: the buy list of `_get_buy_candidates` contains exactly the
rows with `hist_min_sell > 0` and `latest_sell < hist_min_sell`, truncated
to the top 5 by `below_floor_pct = (hist_min_sell - latest_sell) /
hist_min_sell * 100` rounded to one decimal, sorted descending by that
value; the row with `latest_sell=5000`, `hist_min_sell=6000` is a buy
candidate with `below_floor_pct = 16.7`. -/
theorem C1_buy_candidates (df : List Snapshot) :
    (∀ c ∈ get_buy_candidates df,
        0 < c.snap.hist_min_sell ∧ c.snap.latest_sell < c.snap.hist_min_sell ∧
        c.below_floor_pct =
          round1 ((c.snap.hist_min_sell - c.snap.latest_sell) /
            c.snap.hist_min_sell * 100)) ∧
    (get_buy_candidates df).length = min 5 (df.filter buyFilterB).length ∧
    ((get_buy_candidates df).map BuyCand.snap).Subperm (df.filter buyFilterB) ∧
    List.Sorted (fun a b => b.below_floor_pct ≤ a.below_floor_pct)
      (get_buy_candidates df) ∧
    (∀ s ∈ df, buyFilterB s = true →
      (∀ c ∈ get_buy_candidates df, c.below_floor_pct < belowFloorPct s) →
      BuyCand.mk s (belowFloorPct s) ∈ get_buy_candidates df) ∧
    get_buy_candidates [rowBelowFloor] = [⟨rowBelowFloor, 167/10⟩] := by
  refine ⟨?_, ?_, ?_, ?_, ?_, ?_⟩
  · intro c hc
    rcases List.mem_map.mp (mem_topN hc) with ⟨s, hs, rfl⟩
    have hp := buyFilterB_prop (List.mem_filter.mp hs).2
    exact ⟨hp.1, hp.2, rfl⟩
  · rw [get_buy_candidates, topN_length, List.length_map]
  · have h := subperm_map BuyCand.snap
      (topN_subperm 5 (fun c => c.below_floor_pct)
        ((df.filter buyFilterB).map fun s => ⟨s, belowFloorPct s⟩))
    rw [List.map_map] at h
    have hid : (BuyCand.snap ∘ fun s => (⟨s, belowFloorPct s⟩ : BuyCand)) = id := rfl
    rw [hid, List.map_id] at h
    exact h
  · exact topN_sorted 5 _ _
  · intro s hs hfil hbest
    exact topN_top (by norm_num)
      (List.mem_map.mpr ⟨s, List.mem_filter.mpr ⟨hs, hfil⟩, rfl⟩) hbest
  · norm_num [get_buy_candidates, topN, sortByDesc, buyFilterB, belowFloorPct,
      round1, roundHalfEven, rowBelowFloor, List.filter, List.insertionSort]

/-- Claim C1 witness: the theorem applied to the singleton batch holding
the concrete scenario row. -/
theorem C1_buy_candidates_witness :
    0 < rowBelowFloor.hist_min_sell ∧
    rowBelowFloor.latest_sell < rowBelowFloor.hist_min_sell ∧
    (167/10 : ℚ) = round1 ((rowBelowFloor.hist_min_sell -
      rowBelowFloor.latest_sell) / rowBelowFloor.hist_min_sell * 100) := by
  have h := C1_buy_candidates [rowBelowFloor]
  exact h.1 ⟨rowBelowFloor, 167/10⟩ (h.2.2.2.2.2 ▸ List.mem_singleton_self _)

/-- A concrete owned row above its 30-day ceiling. -/
def rowAboveCeiling : Snapshot :=
  { current_count := 1, latest_buy := 1200, hist_max_buy := 1000 }

/-- Claim C2: every row of the sell list of `_get_sell_candidates`
satisfies `current_count > 0`, `hist_max_buy > 0` and
`latest_buy > hist_max_buy`; the list has at most 5 rows and is sorted
descending by `above_ceiling_pct = (latest_buy - hist_max_buy) /
hist_max_buy * 100` (rounded to one decimal, as on the buy side). -/
theorem C2_sell_candidates (df : List Snapshot) :
    (∀ c ∈ get_sell_candidates df,
        0 < c.snap.current_count ∧ 0 < c.snap.hist_max_buy ∧
        c.snap.hist_max_buy < c.snap.latest_buy ∧
        c.above_ceiling_pct =
          round1 ((c.snap.latest_buy - c.snap.hist_max_buy) /
            c.snap.hist_max_buy * 100)) ∧
    (get_sell_candidates df).length ≤ 5 ∧
    List.Sorted (fun a b => b.above_ceiling_pct ≤ a.above_ceiling_pct)
      (get_sell_candidates df) := by
  refine ⟨?_, ?_, ?_⟩
  · intro c hc
    rcases List.mem_map.mp (mem_topN hc) with ⟨s, hs, rfl⟩
    have hp := sellFilterB_prop (List.mem_filter.mp hs).2
    exact ⟨hp.1, hp.2.1, hp.2.2, rfl⟩
  · rw [get_sell_candidates, topN_length]
    omega
  · exact topN_sorted 5 _ _

/-- Claim C2 witness: the theorem applied to a singleton batch holding a
concrete owned row 20% above its ceiling. -/
theorem C2_sell_candidates_witness :
    0 < rowAboveCeiling.current_count ∧
    0 < rowAboveCeiling.hist_max_buy ∧
    rowAboveCeiling.hist_max_buy < rowAboveCeiling.latest_buy ∧
    (20 : ℚ) = round1 ((rowAboveCeiling.latest_buy -
      rowAboveCeiling.hist_max_buy) / rowAboveCeiling.hist_max_buy * 100) :=
  (C2_sell_candidates [rowAboveCeiling]).1 ⟨rowAboveCeiling, 20⟩ (by
    norm_num [get_sell_candidates, topN, sortByDesc, sellFilterB,
      aboveCeilingPct, round1, roundHalfEven, rowAboveCeiling,
      List.filter, List.insertionSort])

/-- A row whose every field is absent/zero except the identifying ones. -/
def rowAllZero : Snapshot := {}

/-- A below-floor row whose other three price fields are zero. -/
def rowZeroPrices : Snapshot :=
  { latest_sell := 5000, hist_min_sell := 6000, latest_buy := 0,
    avg_sell_30d := 0, avg_buy_30d := 0 }

/-- Claim C3 counterexample: a row with `latest_buy = 0`, `avg_sell_30d = 0`
and `avg_buy_30d = 0` still enters the buy-ratio computation and the buy
list, so rows are not required to have all four price fields positive. -/
theorem C3_counterexample :
    BuyCand.mk rowZeroPrices (167/10) ∈ get_buy_candidates [rowZeroPrices] ∧
    ¬(0 < rowZeroPrices.latest_buy) ∧ ¬(0 < rowZeroPrices.avg_sell_30d) ∧
    ¬(0 < rowZeroPrices.avg_buy_30d) := by
  refine ⟨?_, by norm_num [rowZeroPrices], by norm_num [rowZeroPrices],
    by norm_num [rowZeroPrices]⟩
  norm_num [get_buy_candidates, topN, sortByDesc, buyFilterB, belowFloorPct,
    round1, roundHalfEven, rowZeroPrices, List.filter, List.insertionSort]

/-- Claim C3 (amended): the candidate derivations guard only their own
denominator — a row enters the buy list (and its ratio) only when
`hist_min_sell > 0` and the sell list only when `hist_max_buy > 0`, so
every division performed has a strictly positive denominator and a row
with a zero denominator is excluded from the relevant list; no filter on
the remaining price/average fields is applied. -/
theorem C3_denominators (df : List Snapshot) :
    (∀ c ∈ get_buy_candidates df, 0 < c.snap.hist_min_sell) ∧
    (∀ c ∈ get_sell_candidates df, 0 < c.snap.hist_max_buy) ∧
    (∀ s ∈ df, s.hist_min_sell = 0 →
      ∀ p, BuyCand.mk s p ∉ get_buy_candidates df) ∧
    (∀ s ∈ df, s.hist_max_buy = 0 →
      ∀ p, SellCand.mk s p ∉ get_sell_candidates df) := by
  refine ⟨?_, ?_, ?_, ?_⟩
  · intro c hc
    rcases List.mem_map.mp (mem_topN hc) with ⟨s, hs, rfl⟩
    exact (buyFilterB_prop (List.mem_filter.mp hs).2).1
  · intro c hc
    rcases List.mem_map.mp (mem_topN hc) with ⟨s, hs, rfl⟩
    exact (sellFilterB_prop (List.mem_filter.mp hs).2).2.1
  · intro s _ h0 p hmem
    rcases List.mem_map.mp (mem_topN hmem) with ⟨t, ht, heq⟩
    have hts : t = s := congrArg BuyCand.snap heq
    have := (buyFilterB_prop (List.mem_filter.mp ht).2).1
    rw [hts, h0] at this
    exact lt_irrefl 0 this
  · intro s _ h0 p hmem
    rcases List.mem_map.mp (mem_topN hmem) with ⟨t, ht, heq⟩
    have hts : t = s := congrArg SellCand.snap heq
    have := (sellFilterB_prop (List.mem_filter.mp ht).2).2.1
    rw [hts, h0] at this
    exact lt_irrefl 0 this

/-- Claim C3 witness: the amended theorem applied to concrete batches — a
positive-denominator row in the buy list, and an all-zero row excluded. -/
theorem C3_denominators_witness :
    0 < rowZeroPrices.hist_min_sell ∧
    BuyCand.mk rowAllZero 0 ∉ get_buy_candidates [rowAllZero] := by
  constructor
  · exact (C3_denominators [rowZeroPrices]).1 ⟨rowZeroPrices, 167/10⟩ (by
      norm_num [get_buy_candidates, topN, sortByDesc, buyFilterB,
        belowFloorPct, round1, roundHalfEven, rowZeroPrices,
        List.filter, List.insertionSort])
  · exact (C3_denominators [rowAllZero]).2.2.1 rowAllZero
      (List.mem_singleton_self _) (by norm_num [rowAllZero]) 0

/-- A below-floor row with thin sell-side order-book depth. -/
def rowIlliquidBuy : Snapshot :=
  { latest_sell := 5000, hist_min_sell := 6000, sell_listings := 3 }

/-- An owned above-ceiling row with thin buy-side order-book depth. -/
def rowIlliquidSell : Snapshot :=
  { current_count := 1, latest_buy := 1200, hist_max_buy := 1000,
    buy_orders := 2 }

/-- Claim C4 counterexample: a row with `sell_listings = 3 < 10` appears in
the buy-candidate list and a row with `buy_orders = 2 < 10` appears in the
sell-candidate list — no liquidity threshold is enforced. -/
theorem C4_counterexample :
    (BuyCand.mk rowIlliquidBuy (167/10) ∈ get_buy_candidates [rowIlliquidBuy] ∧
      rowIlliquidBuy.sell_listings < 10) ∧
    (SellCand.mk rowIlliquidSell 20 ∈ get_sell_candidates [rowIlliquidSell] ∧
      rowIlliquidSell.buy_orders < 10) := by
  refine ⟨⟨?_, by norm_num [rowIlliquidBuy]⟩, ⟨?_, by norm_num [rowIlliquidSell]⟩⟩
  · norm_num [get_buy_candidates, topN, sortByDesc, buyFilterB, belowFloorPct,
      round1, roundHalfEven, rowIlliquidBuy, List.filter, List.insertionSort]
  · norm_num [get_sell_candidates, topN, sortByDesc, sellFilterB,
      aboveCeilingPct, round1, roundHalfEven, rowIlliquidSell,
      List.filter, List.insertionSort]

/-- Claim C4 (amended): candidate derivation applies no order-book-depth
threshold (rows with `sell_listings < 10` or `buy_orders < 10` can be
listed, per the counterexample); the only inventory constraint is that a
sell candidate is an owned row — every sell-list row has
`current_count > 0` and a row with `current_count = 0` never appears
there. -/
theorem C4_ownership_only (df : List Snapshot) :
    (∀ c ∈ get_sell_candidates df, 0 < c.snap.current_count) ∧
    (∀ s ∈ df, s.current_count = 0 →
      ∀ p, SellCand.mk s p ∉ get_sell_candidates df) := by
  constructor
  · intro c hc
    rcases List.mem_map.mp (mem_topN hc) with ⟨s, hs, rfl⟩
    exact (sellFilterB_prop (List.mem_filter.mp hs).2).1
  · intro s _ h0 p hmem
    rcases List.mem_map.mp (mem_topN hmem) with ⟨t, ht, heq⟩
    have hts : t = s := congrArg SellCand.snap heq
    have := (sellFilterB_prop (List.mem_filter.mp ht).2).1
    rw [hts, h0] at this
    exact lt_irrefl 0 this

/-- Claim C4 witness: the amended theorem applied to concrete batches — an
owned row in the sell list is owned, and an unowned row is excluded. -/
theorem C4_ownership_only_witness :
    0 < rowIlliquidSell.current_count ∧
    SellCand.mk rowAllZero 0 ∉ get_sell_candidates [rowAllZero] := by
  constructor
  · exact (C4_ownership_only [rowIlliquidSell]).1 ⟨rowIlliquidSell, 20⟩ (by
      norm_num [get_sell_candidates, topN, sortByDesc, sellFilterB,
        aboveCeilingPct, round1, roundHalfEven, rowIlliquidSell,
        List.filter, List.insertionSort])
  · exact (C4_ownership_only [rowAllZero]).2 rowAllZero
      (List.mem_singleton_self _) (by norm_num [rowAllZero]) 0

/-- An owned row whose after-tax value is fractional. -/
def rowFractionalProfit : Snapshot :=
  { latest_sell := 3, avg_buy_30d := 0, current_count := 1 }

/-- Claim C5 counterexample: with `latest_sell = 3`, `avg_buy_30d = 0`,
`current_count = 1` the code stores `int(max(0, 2.55)) = 2`, not the
claimed exact value `max(0, 2.55) = 2.55` — `total_sell_profit` is the
integer truncation of the claimed quantity, not that quantity itself. -/
theorem C5_counterexample :
    total_sell_profit rowFractionalProfit = 2 ∧
    max 0 ((rowFractionalProfit.latest_sell * (1 - TAX_RATE) -
      rowFractionalProfit.avg_buy_30d) * rowFractionalProfit.current_count) =
      51/20 ∧
    (total_sell_profit rowFractionalProfit : ℚ) ≠
      max 0 ((rowFractionalProfit.latest_sell * (1 - TAX_RATE) -
        rowFractionalProfit.avg_buy_30d) * rowFractionalProfit.current_count) := by
  refine ⟨?_, ?_, ?_⟩ <;>
    norm_num [total_sell_profit, ratTrunc, TAX_RATE, rowFractionalProfit]

/-- Claim C5 (amended): for every row, `total_sell_profit` equals the
floor (integer truncation) of
`max(0, (latest_sell * (1 - TAX_RATE) - avg_buy_30d) * current_count)`
with the fixed 15% transaction tax, and is therefore always non-negative;
in the source the factor `0.85` is written inline in `_build_ai_snapshot`
rather than through a named constant. -/
theorem C5_total_profit (s : Snapshot) :
    total_sell_profit s =
      ⌊max 0 ((s.latest_sell * (1 - TAX_RATE) - s.avg_buy_30d) *
        s.current_count)⌋ ∧
    0 ≤ total_sell_profit s := by
  have h85 : (1 - TAX_RATE : ℚ) = 85/100 := by norm_num [TAX_RATE]
  unfold total_sell_profit ratTrunc
  rw [h85, max_comm (0 : ℚ)]
  rw [if_neg (not_lt.mpr (le_max_right _ 0))]
  exact ⟨rfl, Int.floor_nonneg.mpr (le_max_right _ 0)⟩

/-- Claim C6: `format_gsc` emits the gold part only when it is non-zero,
the silver part when gold shows or silver is non-zero, and the copper part
always; concretely `format_gsc 12345 = "1g 23s 45c"`,
`format_gsc 45 = "45c"`, `format_gsc 100 = "1s 0c"`,
`format_gsc 123456 = "12g 34s 56c"`, `format_gsc 99 = "99c"`. -/
theorem C6_format_gsc (n : ℕ) :
    format_gsc n =
      (if n / 10000 = 0 then
        if n % 10000 / 100 = 0 then Nat.repr (n % 100) ++ "c"
        else Nat.repr (n % 10000 / 100) ++ "s" ++ " " ++
          Nat.repr (n % 100) ++ "c"
       else commaRepr (n / 10000) ++ "g" ++ " " ++
         Nat.repr (n % 10000 / 100) ++ "s" ++ " " ++
         Nat.repr (n % 100) ++ "c") ∧
    format_gsc 12345 = "1g 23s 45c" ∧ format_gsc 45 = "45c" ∧
    format_gsc 100 = "1s 0c" ∧ format_gsc 123456 = "12g 34s 56c" ∧
    format_gsc 99 = "99c" := by
  refine ⟨?_, rfl, rfl, rfl, rfl, rfl⟩
  by_cases h1 : n / 10000 = 0
  · by_cases h2 : n % 10000 / 100 = 0
    · simp [format_gsc, copper_to_gsc, joinSpace, h1, h2]
    · simp [format_gsc, copper_to_gsc, joinSpace, h1, h2, String.append_assoc]
  · simp [format_gsc, copper_to_gsc, joinSpace, h1, String.append_assoc]

/-- Claim C7: `copper_to_gsc` decomposes by `// 10000`, `% 10000 // 100`
and `% 100`; the parts recompose to the input with both lower tiers below
100, and reformatting the recomposed amount reproduces the same string. -/
theorem C7_round_trip (n : ℕ) :
    copper_to_gsc n = (n / 10000, n % 10000 / 100, n % 100) ∧
    (copper_to_gsc n).1 * 10000 + (copper_to_gsc n).2.1 * 100 +
      (copper_to_gsc n).2.2 = n ∧
    (copper_to_gsc n).2.1 < 100 ∧ (copper_to_gsc n).2.2 < 100 ∧
    format_gsc ((copper_to_gsc n).1 * 10000 + (copper_to_gsc n).2.1 * 100 +
      (copper_to_gsc n).2.2) = format_gsc n := by
  have hrec : (copper_to_gsc n).1 * 10000 + (copper_to_gsc n).2.1 * 100 +
      (copper_to_gsc n).2.2 = n := by
    show n / 10000 * 10000 + n % 10000 / 100 * 100 + n % 100 = n
    omega
  refine ⟨rfl, hrec, ?_, ?_, congrArg format_gsc hrec⟩
  · show n % 10000 / 100 < 100
    omega
  · show n % 100 < 100
    omega

/-- The concrete scenario row of the spec's Policy A:
`latest_buy=8000`, `avg_buy_30d=10000`, `sell_listings=15`, with the
remaining prices positive so the row is valid. -/
def rowDiscounted : Snapshot :=
  { latest_sell := 9000, latest_buy := 8000, avg_sell_30d := 9500,
    avg_buy_30d := 10000, sell_listings := 15 }

/-- Claim C8: every row of Policy A's buy list has
`discount = avg_buy_30d - latest_buy > 0` and
`discount_pct = discount / avg_buy_30d * 100`, the list is sorted
descending by `discount_pct`, and the row with `latest_buy=8000`,
`avg_buy_30d=10000`, `sell_listings=15` is included with `discount=2000`
and `discount_pct=20.0`. -/
theorem C8_policyA_buy (df : List Snapshot) :
    (∀ c ∈ policyA_buy_candidates df,
        0 < c.discount ∧ c.discount = c.snap.avg_buy_30d - c.snap.latest_buy ∧
        c.discount_pct = c.discount / c.snap.avg_buy_30d * 100) ∧
    List.Sorted (fun a b => b.discount_pct ≤ a.discount_pct)
      (policyA_buy_candidates df) ∧
    policyA_buy_candidates [rowDiscounted] = [⟨rowDiscounted, 2000, 20⟩] := by
  refine ⟨?_, ?_, ?_⟩
  · intro c hc
    rw [policyA_buy_candidates] at hc
    rcases List.mem_map.mp ((sortByDesc_perm _ _).mem_iff.mp hc) with ⟨s, hs, rfl⟩
    have hf := (List.mem_filter.mp hs).2
    rcases Bool.and_eq_true_iff.mp hf with ⟨_, hd⟩
    exact ⟨of_decide_eq_true hd, rfl, rfl⟩
  · exact sortByDesc_sorted _ _
  · norm_num [policyA_buy_candidates, sortByDesc, validRow, rowDiscounted,
      List.filter, List.insertionSort]

/-- Claim C8 witness: the theorem applied to the singleton batch holding
the concrete discounted row. -/
theorem C8_policyA_buy_witness :
    (0 : ℚ) < 2000 ∧
    (2000 : ℚ) = rowDiscounted.avg_buy_30d - rowDiscounted.latest_buy ∧
    (20 : ℚ) = 2000 / rowDiscounted.avg_buy_30d * 100 := by
  have h := C8_policyA_buy [rowDiscounted]
  exact h.1 ⟨rowDiscounted, 2000, 20⟩ (h.2.2 ▸ List.mem_singleton_self _)

/-- Claim C9: an empty input batch yields empty buy and sell candidate
lists without any error. -/
theorem C9_empty_batch :
    get_buy_candidates [] = [] ∧ get_sell_candidates [] = [] :=
  ⟨rfl, rfl⟩

/-- A raw row whose latest sell price is missing and whose latest buy
price is non-numeric, with a numeric 30-day floor. -/
def rawPartialRow : RawSnapshot :=
  { latest_sell := .missing, latest_buy := .nonNumeric,
    hist_min_sell := .num 6000 }

/-- Claim C10 (implicit): `_load_data` coerces every listed numeric signal
column cell-wise with `pd.to_numeric(..., errors="coerce").fillna(0)`, so
no loaded column holds a missing value — numeric cells pass through and
missing or non-numeric cells become 0 — and a row whose price is absent
enters the downstream candidate filters as if that price were 0: the raw
row with a missing `latest_sell` and floor 6000 becomes a buy candidate
100% below its floor. -/
theorem C10_load_coercion (r : RawSnapshot) :
    ((load_row r).current_count = coerceCell r.current_count ∧
     (load_row r).latest_sell = coerceCell r.latest_sell ∧
     (load_row r).latest_buy = coerceCell r.latest_buy ∧
     (load_row r).avg_sell_30d = coerceCell r.avg_sell_30d ∧
     (load_row r).avg_buy_30d = coerceCell r.avg_buy_30d ∧
     (load_row r).hist_min_sell = coerceCell r.hist_min_sell ∧
     (load_row r).hist_max_sell = coerceCell r.hist_max_sell ∧
     (load_row r).hist_min_buy = coerceCell r.hist_min_buy ∧
     (load_row r).hist_max_buy = coerceCell r.hist_max_buy ∧
     (load_row r).buy_z_score = coerceCell r.buy_z_score ∧
     (load_row r).sell_z_score = coerceCell r.sell_z_score) ∧
    coerceCell RawCell.missing = 0 ∧
    coerceCell RawCell.nonNumeric = 0 ∧
    (∀ q, coerceCell (RawCell.num q) = q) ∧
    (load_row rawPartialRow).latest_sell = 0 ∧
    (load_row rawPartialRow).latest_buy = 0 ∧
    get_buy_candidates [load_row rawPartialRow] =
      [⟨load_row rawPartialRow, 100⟩] := by
  refine ⟨⟨rfl, rfl, rfl, rfl, rfl, rfl, rfl, rfl, rfl, rfl, rfl⟩,
    rfl, rfl, fun q => rfl, rfl, rfl, ?_⟩
  norm_num [get_buy_candidates, topN, sortByDesc, buyFilterB, belowFloorPct,
    round1, roundHalfEven, load_row, coerceCell, rawPartialRow,
    List.filter, List.insertionSort]
